import Mathlib

/-
Verification of the braindots core simulation layer.

This file shallowly embeds the parts of the game's source that the
specification talks about:

* the pixel/physics coordinate transform (PhysicsWorld.toPhysics /
  PhysicsWorld.toPixels),
* the drawn-line collider builder (DrawnLine.createPhysicsSegments),
* the conveyor-belt force law (Game.applyAcceleration and the per-contact
  direction rule in Game.update),
* the arc-obstacle collinear degradation (Obstacle, c_shape branch),
* the orchestrator state machine of the Game class: collision-event
  processing, boundary loss checks, win/loss handling, the deferred-reload
  timer, level clearing, and the ice-block melt pipeline.

Modelling conventions:

* All numeric values (pixels and physics metres) are rationals.  The
  JavaScript code computes with IEEE doubles; every embedded formula is the
  exact rational counterpart of the source expression.
* The external Rapier solver (world.step) is abstracted as an arbitrary
  function applied to body positions, and the drained collision-event queue
  is an arbitrary event list handed to the tick.
* Trigonometric evaluations of a body's rotation angle are passed to the
  embedded functions as an explicit cosine/sine pair, since the embedding
  stays inside the rationals.
* The TypeScript Game object aliases each Ball object from both the live
  ball array and the collider-handle map; the embedding keeps both fields
  and updates them in lock step where the source mutates the shared object.
-/

namespace Braindots

/-- A 2-d vector over the rationals (positions, velocities, pixel points). -/
structure Vec2 where
  x : ℚ
  y : ℚ
deriving DecidableEq, Repr

/-- config.ts: SCALE = 60 (60 pixels = 1 metre in the physics world). -/
def SCALE : ℚ := 60

/-- config.ts: GAME_WIDTH = 1280. -/
def GAME_WIDTH : ℚ := 1280

/-- config.ts: GAME_HEIGHT = 720. -/
def GAME_HEIGHT : ℚ := 720

/-- config.ts: BALL_RADIUS = 25 pixels. -/
def BALL_RADIUS : ℚ := 25

/-- config.ts: LINE_WIDTH = 16 pixels. -/
def LINE_WIDTH : ℚ := 16

/-- PhysicsWorld.toPhysics: pixel coordinates to physics coordinates,
with the vertical axis inverted (pixel Y grows downward). -/
def toPhysics (pixelX pixelY : ℚ) : Vec2 :=
  ⟨pixelX / SCALE, -pixelY / SCALE⟩

/-- PhysicsWorld.toPixels: physics coordinates back to pixel coordinates. -/
def toPixels (physicsX physicsY : ℚ) : Vec2 :=
  ⟨physicsX * SCALE, -physicsY * SCALE⟩

/-- C5: converting a presentation-space point to simulation space and back is
the identity: toPixels (toPhysics px py) = (px, py), under the fixed scale
factor 60 with Y-axis inversion.  (Over the rationals the round trip is
exact, hence in particular within any floating-point epsilon.) -/
theorem c5_transform_roundtrip (px py : ℚ) :
    toPixels (toPhysics px py).x (toPhysics px py).y = ⟨px, py⟩ := by
  simp only [toPhysics, toPixels, SCALE]
  have h60 : (60 : ℚ) ≠ 0 := by norm_num
  congr 1
  · exact div_mul_cancel₀ px h60
  · field_simp

/-! ## Drawn-Line Builder (DrawnLine.ts) -/

/-- A point of an input polyline, in pixel coordinates
(utils/douglasPeucker.ts Point). -/
structure PPoint where
  x : ℚ
  y : ℚ
deriving DecidableEq, Repr

/-- A collider created by DrawnLine.createPhysicsSegments.  A `segment` is the
cuboid collider of one consecutive point pair: it records the segment centre,
the physics-space deltas dx, dy, and the half width; the source additionally
derives the cuboid half length sqrt(dx^2+dy^2)/2 and the rotation
atan2 dy dx from the same deltas.  A `joint` is the small ball collider
placed at an input point. -/
inductive LineCollider
  | segment (centerX centerY dx dy halfWidth : ℚ)
  | joint (x y radius : ℚ)
deriving DecidableEq, Repr

/-- DrawnLine.calculateCentroid: the arithmetic mean of the input points. -/
def calculateCentroid (points : List PPoint) : PPoint :=
  ⟨(points.map PPoint.x).sum / points.length,
   (points.map PPoint.y).sum / points.length⟩

/-- The consecutive point pairs of a polyline (the index pairs (i, i+1) of
the segment loop in DrawnLine.createPhysicsSegments). -/
def consecutivePairs : List PPoint → List (PPoint × PPoint)
  | p1 :: p2 :: rest => (p1, p2) :: consecutivePairs (p2 :: rest)
  | _ => []

/-- The body of the segment loop of DrawnLine.createPhysicsSegments: the two
points are moved relative to the centroid and rescaled to physics space with
the Y axis inverted; segments whose length is below 0.001 physics units are
skipped (`none`).  The source compares Math.sqrt(dx*dx+dy*dy) < 0.001, which
for nonnegative reals is equivalent to the squared comparison used here. -/
def segmentCollider (centroid : PPoint) (pr : PPoint × PPoint) :
    Option LineCollider :=
  let x1 := (pr.1.x - centroid.x) / SCALE
  let y1 := -(pr.1.y - centroid.y) / SCALE
  let x2 := (pr.2.x - centroid.x) / SCALE
  let y2 := -(pr.2.y - centroid.y) / SCALE
  let dx := x2 - x1
  let dy := y2 - y1
  if dx * dx + dy * dy < 1 / 1000000 then none
  else
    some (.segment ((x1 + x2) / 2) ((y1 + y2) / 2) dx dy ((LINE_WIDTH / 2) / SCALE))

/-- The joint loop of DrawnLine.createPhysicsSegments: one ball collider of
radius LINE_WIDTH/2 (in physics units) centred at every input point. -/
def jointCollider (centroid : PPoint) (p : PPoint) : LineCollider :=
  .joint ((p.x - centroid.x) / SCALE) (-(p.y - centroid.y) / SCALE)
    ((LINE_WIDTH / 2) / SCALE)

/-- DrawnLine.createPhysicsSegments: segment colliders for the surviving
consecutive pairs, then a joint circle at every input point. -/
def createPhysicsSegments (centroid : PPoint) (points : List PPoint) :
    List LineCollider :=
  (consecutivePairs points).filterMap (segmentCollider centroid)
    ++ points.map (jointCollider centroid)

/-- The collider list of the DrawnLine constructor: colliders are positioned
relative to the centroid of the input points. -/
def drawnLineColliders (points : List PPoint) : List LineCollider :=
  createPhysicsSegments (calculateCentroid points) points

/-- Tests whether a collider is a segment cuboid. -/
def isSegmentCollider : LineCollider → Bool
  | .segment _ _ _ _ _ => true
  | _ => false

/-- Tests whether a collider is a joint circle. -/
def isJointCollider : LineCollider → Bool
  | .joint _ _ _ => true
  | _ => false

/-- The pixel-space squared length of a consecutive point pair.  The source's
skip test (physics length below 0.001) is equivalent to this quantity being
below 9/2500 = (0.001 * 60)^2. -/
def pairLengthSq (pr : PPoint × PPoint) : ℚ :=
  (pr.2.x - pr.1.x) ^ 2 + (pr.2.y - pr.1.y) ^ 2

lemma segmentCollider_isSome (centroid : PPoint) (pr : PPoint × PPoint) :
    (segmentCollider centroid pr).isSome
      = decide ((9 : ℚ) / 2500 ≤ pairLengthSq pr) := by
  unfold segmentCollider pairLengthSq
  have hx : (pr.2.x - centroid.x) / SCALE - (pr.1.x - centroid.x) / SCALE
      = (pr.2.x - pr.1.x) / 60 := by
    simp only [SCALE]; ring
  have hy : -(pr.2.y - centroid.y) / SCALE - -(pr.1.y - centroid.y) / SCALE
      = -((pr.2.y - pr.1.y) / 60) := by
    simp only [SCALE]; ring
  simp only [hx, hy]
  have hval : (pr.2.x - pr.1.x) / 60 * ((pr.2.x - pr.1.x) / 60)
      + -((pr.2.y - pr.1.y) / 60) * -((pr.2.y - pr.1.y) / 60)
      = ((pr.2.x - pr.1.x) ^ 2 + (pr.2.y - pr.1.y) ^ 2) / 3600 := by
    ring
  rw [hval]
  by_cases h : ((pr.2.x - pr.1.x) ^ 2 + (pr.2.y - pr.1.y) ^ 2) / 3600
      < 1 / 1000000
  · rw [if_pos h]
    have h9 : ¬ ((9 : ℚ) / 2500 ≤ (pr.2.x - pr.1.x) ^ 2 + (pr.2.y - pr.1.y) ^ 2) := by
      rw [div_lt_div_iff (by norm_num) (by norm_num)] at h
      intro hc
      nlinarith
    simp [h9]
  · rw [if_neg h]
    have h9 : (9 : ℚ) / 2500 ≤ (pr.2.x - pr.1.x) ^ 2 + (pr.2.y - pr.1.y) ^ 2 := by
      push_neg at h
      rw [div_le_div_iff (by norm_num) (by norm_num)] at h
      nlinarith
    simp [h9]

lemma length_filterMap_eq_countP {α β : Type} (f : α → Option β) :
    ∀ l : List α, (l.filterMap f).length = l.countP (fun a => (f a).isSome)
  | [] => rfl
  | a :: l => by
    rw [List.filterMap_cons, List.countP_cons]
    cases h : f a with
    | none =>
      simp only [h, Option.isSome_none, length_filterMap_eq_countP f l]
      simp
    | some b =>
      simp only [h, List.length_cons, Option.isSome_some,
        length_filterMap_eq_countP f l]
      simp

lemma countP_segments (centroid : PPoint) (prs : List (PPoint × PPoint)) :
    ((prs.filterMap (segmentCollider centroid)).countP isSegmentCollider)
      = prs.countP (fun pr => decide ((9 : ℚ) / 2500 ≤ pairLengthSq pr)) := by
  induction prs with
  | nil => rfl
  | cons pr rest ih =>
    rw [List.filterMap_cons, List.countP_cons, ← segmentCollider_isSome centroid pr]
    cases h : segmentCollider centroid pr with
    | none => simpa [h] using ih
    | some c =>
      have hc : isSegmentCollider c = true := by
        unfold segmentCollider at h
        dsimp only at h
        split at h
        · exact absurd h (by simp)
        · rw [Option.some.injEq] at h
          subst h
          rfl
      rw [List.countP_cons]
      simp [h, hc, ih]

/-- C6: the Drawn-Line Builder creates one segment collider per consecutive
point pair whose length reaches the negligible epsilon (the source skips any
pair whose physics-space length is below 0.001, i.e. whose pixel-space
squared length is below 9/2500), plus one joint circle at every input point;
a single-point stroke yields exactly one circular collider (at the body
origin) and zero segments, and a two-point stroke of at least epsilon length
yields exactly one segment collider plus two joint circles. -/
theorem c6_drawn_line_colliders (pts : List PPoint) (p q r0 : PPoint)
    (hpq : (9 : ℚ) / 2500 ≤ pairLengthSq (p, q)) :
    ((drawnLineColliders pts).countP isSegmentCollider
        = (consecutivePairs pts).countP
            (fun pr => decide ((9 : ℚ) / 2500 ≤ pairLengthSq pr)))
    ∧ ((drawnLineColliders pts).countP isJointCollider = pts.length)
    ∧ (drawnLineColliders [r0]
        = [LineCollider.joint 0 0 ((LINE_WIDTH / 2) / SCALE)])
    ∧ ((drawnLineColliders [p, q]).countP isSegmentCollider = 1
        ∧ (drawnLineColliders [p, q]).countP isJointCollider = 2) := by
  have hseg : ∀ l : List PPoint,
      (drawnLineColliders l).countP isSegmentCollider
        = (consecutivePairs l).countP
            (fun pr => decide ((9 : ℚ) / 2500 ≤ pairLengthSq pr)) := by
    intro l
    unfold drawnLineColliders createPhysicsSegments
    rw [List.countP_append, countP_segments]
    have hz : (l.map (jointCollider (calculateCentroid l))).countP
        isSegmentCollider = 0 := by
      rw [List.countP_eq_zero]
      intro c hc
      rcases List.mem_map.mp hc with ⟨pt, _, rfl⟩
      simp [jointCollider, isSegmentCollider]
    omega
  have hjoint : ∀ l : List PPoint,
      (drawnLineColliders l).countP isJointCollider = l.length := by
    intro l
    unfold drawnLineColliders createPhysicsSegments
    rw [List.countP_append]
    have hz : ((consecutivePairs l).filterMap
        (segmentCollider (calculateCentroid l))).countP isJointCollider = 0 := by
      rw [List.countP_eq_zero]
      intro c hc
      rcases List.mem_filterMap.mp hc with ⟨pr, _, hpr⟩
      unfold segmentCollider at hpr
      dsimp only at hpr
      split at hpr
      · exact absurd hpr (by simp)
      · rw [Option.some.injEq] at hpr
        subst hpr
        simp [isJointCollider]
    have hl : (l.map (jointCollider (calculateCentroid l))).countP
        isJointCollider = l.length := by
      rw [List.countP_eq_length.mpr, List.length_map]
      intro c hc
      rcases List.mem_map.mp hc with ⟨pt, _, rfl⟩
      simp [jointCollider, isJointCollider]
    omega
  refine ⟨hseg pts, hjoint pts, ?_, ?_, ?_⟩
  · unfold drawnLineColliders createPhysicsSegments consecutivePairs
    simp only [List.filterMap_nil, List.nil_append, List.map_cons, List.map_nil]
    unfold jointCollider calculateCentroid
    simp only [List.map_cons, List.map_nil, List.sum_cons, List.sum_nil,
      List.length_cons, List.length_nil]
    norm_num
  · rw [hseg [p, q]]
    unfold consecutivePairs consecutivePairs
    rw [List.countP_cons]
    simp [hpq]
  · rw [hjoint [p, q]]
    rfl

/-- Witness for C6 at a concrete two-point stroke (the pair (0,0)-(100,0)
is far above the skip epsilon). -/
theorem c6_drawn_line_colliders_witness :
    (9 : ℚ) / 2500 ≤ pairLengthSq (⟨0, 0⟩, ⟨100, 0⟩)
    ∧ ((drawnLineColliders [⟨0, 0⟩, ⟨100, 0⟩]).countP isSegmentCollider = 1
        ∧ (drawnLineColliders [⟨0, 0⟩, ⟨100, 0⟩]).countP isJointCollider = 2) :=
  ⟨by norm_num [pairLengthSq],
   (c6_drawn_line_colliders [] ⟨0, 0⟩ ⟨100, 0⟩ ⟨0, 0⟩
     (by norm_num [pairLengthSq])).2.2.2⟩

/-! ## Conveyor-belt force law (Game.applyAcceleration, Game.update) -/

/-- Math.sign as used by Game.applyAcceleration. -/
def mathSign (q : ℚ) : ℚ :=
  if 0 < q then 1 else if q < 0 then -1 else 0

/-- Game.applyAcceleration: the conveyor impulse applied to one rigid body.
The arguments cosAngle, sinAngle are the values of Math.cos and Math.sin at
angle = conveyor.getAngle(); accelerationConfig is conveyor.acceleration,
maxVelocity is conveyor.maxVelocity, direction is the plus-or-minus-one flag
from the contact loop, and vel is body.linvel().  Rapier's applyImpulse adds
impulse/mass to the linear velocity, so the returned vector is the body's
velocity after the call. -/
def applyAcceleration (cosAngle sinAngle accelerationConfig maxVelocity
    direction dt mass : ℚ) (vel : Vec2) : Vec2 :=
  let acceleration := accelerationConfig * direction
  let dirX := cosAngle
  let dirY := -sinAngle
  let velInDir := vel.x * dirX + vel.y * dirY
  let effectiveMaxVel := maxVelocity * mathSign acceleration
  let shouldApply : Bool :=
    if 0 < acceleration then decide (velInDir < effectiveMaxVel)
    else decide (effectiveMaxVel < velInDir)
  if shouldApply then
    let forceX := dirX * acceleration * mass
    let forceY := dirY * acceleration * mass
    ⟨vel.x + forceX * dt / mass, vel.y + forceY * dt / mass⟩
  else vel

/-- The velocity component along the acceleration direction, as computed in
Game.applyAcceleration: dirX = cosAngle, dirY = -sinAngle. -/
def velInDirection (cosAngle sinAngle : ℚ) (vel : Vec2) : ℚ :=
  vel.x * cosAngle + vel.y * (-sinAngle)

/-- The belt-axis velocity after n ticks of the conveyor impulse, starting
from rest, with the given fixed per-tick parameters. -/
def velAfterTicks (cosAngle sinAngle accelerationConfig maxVelocity
    direction dt mass : ℚ) : Nat → Vec2
  | 0 => ⟨0, 0⟩
  | n + 1 =>
      applyAcceleration cosAngle sinAngle accelerationConfig maxVelocity
        direction dt mass
        (velAfterTicks cosAngle sinAngle accelerationConfig maxVelocity
          direction dt mass n)

/-- Unfolding lemma: no ticks means rest. -/
lemma velAfterTicks_zero (cosAngle sinAngle a maxVelocity direction dt mass : ℚ) :
    velAfterTicks cosAngle sinAngle a maxVelocity direction dt mass 0 = ⟨0, 0⟩ :=
  rfl

/-- Unfolding lemma: one more tick applies one more impulse. -/
lemma velAfterTicks_succ (cosAngle sinAngle a maxVelocity direction dt mass : ℚ)
    (n : Nat) :
    velAfterTicks cosAngle sinAngle a maxVelocity direction dt mass (n + 1)
      = applyAcceleration cosAngle sinAngle a maxVelocity direction dt mass
          (velAfterTicks cosAngle sinAngle a maxVelocity direction dt mass n) :=
  rfl

/-- Evaluation of Game.applyAcceleration when the signed acceleration
acceleration = a * direction is positive: the impulse fires exactly when the
velocity component along the direction is below maxVelocity, and the mass
cancels between F = m*a and impulse/m. -/
lemma applyAcceleration_eval_pos (cosA sinA a mv d dt m : ℚ) (v : Vec2)
    (ha : 0 < a * d) (hm : m ≠ 0) :
    applyAcceleration cosA sinA a mv d dt m v
      = if v.x * cosA + v.y * -sinA < mv
        then ⟨v.x + cosA * (a * d) * dt, v.y + -sinA * (a * d) * dt⟩
        else v := by
  unfold applyAcceleration mathSign
  dsimp only
  simp only [if_pos ha, mul_one]
  by_cases h : v.x * cosA + v.y * -sinA < mv
  · rw [if_pos (by simpa using h), if_pos h]
    congr 1 <;> field_simp <;> ring
  · rw [if_neg (by simpa using h), if_neg h]

/-- Evaluation of Game.applyAcceleration when the signed acceleration is
negative: Math.sign gives -1, so the cap test becomes
velInDir > maxVelocity * (-1). -/
lemma applyAcceleration_eval_neg (cosA sinA a mv d dt m : ℚ) (v : Vec2)
    (ha : a * d < 0) (hm : m ≠ 0) :
    applyAcceleration cosA sinA a mv d dt m v
      = if mv * -1 < v.x * cosA + v.y * -sinA
        then ⟨v.x + cosA * (a * d) * dt, v.y + -sinA * (a * d) * dt⟩
        else v := by
  unfold applyAcceleration mathSign
  dsimp only
  have hn : ¬ (0 < a * d) := by linarith
  simp only [if_neg hn, if_pos ha]
  by_cases h : mv * -1 < v.x * cosA + v.y * -sinA
  · rw [if_pos (by simpa using h), if_pos h]
    congr 1 <;> field_simp <;> ring
  · rw [if_neg (by simpa using h), if_neg h]

/-- C3 as stated: the body's speed along the belt axis never exceeds
maxVelocity after any number of ticks starting from rest. -/
def claimC3Statement : Prop :=
  ∀ (cosAngle sinAngle accelerationConfig maxVelocity direction dt mass : ℚ)
    (n : Nat),
    cosAngle ^ 2 + sinAngle ^ 2 = 1 →
    0 < accelerationConfig * direction →
    0 < dt →
    0 < mass →
    0 ≤ maxVelocity →
    velInDirection cosAngle sinAngle
        (velAfterTicks cosAngle sinAngle accelerationConfig maxVelocity
          direction dt mass n)
      ≤ maxVelocity

/-- C3 counterexample: with acceleration 5, maxVelocity 10 and tick dt = 0.3
the belt-axis speed from rest runs 0, 1.5, ..., 9, and the seventh impulse is
still applied (9 is below the cap), leaving the body at 10.5 > maxVelocity.
The cap only suppresses impulses once the component has reached maxVelocity;
the crossing tick itself overshoots by up to one tick's impulse. -/
theorem c3_counterexample : ¬ claimC3Statement := by
  intro h
  have h7 := h 1 0 5 10 1 (3 / 10) 1 7 (by norm_num) (by norm_num)
    (by norm_num) (by norm_num) (by norm_num)
  have hstep : ∀ v : Vec2, v.x < 10 →
      applyAcceleration 1 0 5 10 1 (3 / 10) 1 v = ⟨v.x + 3 / 2, v.y⟩ := by
    intro v hv
    rw [applyAcceleration_eval_pos 1 0 5 10 1 (3 / 10) 1 v (by norm_num)
      (by norm_num)]
    rw [if_pos (by simpa using hv)]
    congr 1 <;> norm_num
  have h1 : velAfterTicks 1 0 5 10 1 (3 / 10) 1 1 = ⟨3 / 2, 0⟩ := by
    rw [velAfterTicks_succ, velAfterTicks_zero, hstep _ (by norm_num)]
    norm_num
  have h2 : velAfterTicks 1 0 5 10 1 (3 / 10) 1 2 = ⟨3, 0⟩ := by
    rw [velAfterTicks_succ, h1, hstep _ (by norm_num)]
    norm_num
  have h3 : velAfterTicks 1 0 5 10 1 (3 / 10) 1 3 = ⟨9 / 2, 0⟩ := by
    rw [velAfterTicks_succ, h2, hstep _ (by norm_num)]
    norm_num
  have h4 : velAfterTicks 1 0 5 10 1 (3 / 10) 1 4 = ⟨6, 0⟩ := by
    rw [velAfterTicks_succ, h3, hstep _ (by norm_num)]
    norm_num
  have h5 : velAfterTicks 1 0 5 10 1 (3 / 10) 1 5 = ⟨15 / 2, 0⟩ := by
    rw [velAfterTicks_succ, h4, hstep _ (by norm_num)]
    norm_num
  have h6 : velAfterTicks 1 0 5 10 1 (3 / 10) 1 6 = ⟨9, 0⟩ := by
    rw [velAfterTicks_succ, h5, hstep _ (by norm_num)]
    norm_num
  have h7v : velAfterTicks 1 0 5 10 1 (3 / 10) 1 7 = ⟨21 / 2, 0⟩ := by
    rw [velAfterTicks_succ, h6, hstep _ (by norm_num)]
    norm_num
  rw [h7v] at h7
  unfold velInDirection at h7
  norm_num at h7

lemma applyAcceleration_velInDir_step (cosA sinA a mv d dt m : ℚ) (v : Vec2)
    (hdir : cosA ^ 2 + sinA ^ 2 = 1) (ha : 0 < a * d) (hm : m ≠ 0) :
    velInDirection cosA sinA (applyAcceleration cosA sinA a mv d dt m v)
      = if velInDirection cosA sinA v < mv
        then velInDirection cosA sinA v + (a * d) * dt
        else velInDirection cosA sinA v := by
  rw [applyAcceleration_eval_pos cosA sinA a mv d dt m v ha hm]
  unfold velInDirection
  by_cases h : v.x * cosA + v.y * -sinA < mv
  · rw [if_pos h, if_pos h]
    dsimp only
    linear_combination a * d * dt * hdir
  · rw [if_neg h, if_neg h]

/-- C3 amended: the per-frame conveyor impulse is applied only while the
body's velocity component along the acceleration direction is below
maxVelocity (once the component is at or above the cap the velocity is left
unchanged), and consequently, starting from rest, after any number of ticks
the component stays strictly below maxVelocity plus one tick's impulse
a * direction * dt - it can overshoot the cap, but by less than one impulse,
and receives no further impulses afterwards. -/
theorem c3_speed_cap (cosA sinA a mv direction dt m : ℚ)
    (hdir : cosA ^ 2 + sinA ^ 2 = 1)
    (ha : 0 < a * direction) (hdt : 0 < dt) (hm : m ≠ 0) (hmv : 0 ≤ mv) :
    (∀ vel : Vec2,
        mv ≤ velInDirection cosA sinA vel →
        applyAcceleration cosA sinA a mv direction dt m vel = vel)
    ∧ (∀ n : Nat,
        velInDirection cosA sinA
            (velAfterTicks cosA sinA a mv direction dt m n)
          < mv + (a * direction) * dt) := by
  constructor
  · intro vel hge
    rw [applyAcceleration_eval_pos cosA sinA a mv direction dt m vel ha hm]
    rw [if_neg (not_lt.mpr (by simpa [velInDirection] using hge))]
  · intro n
    induction n with
    | zero =>
      have h0 : velInDirection cosA sinA
          (velAfterTicks cosA sinA a mv direction dt m 0) = 0 := by
        unfold velAfterTicks velInDirection
        ring
      rw [h0]
      nlinarith [mul_pos ha hdt]
    | succ k ih =>
      rw [velAfterTicks_succ,
        applyAcceleration_velInDir_step cosA sinA a mv direction dt m _ hdir ha hm]
      split
      · next hc => nlinarith [mul_pos ha hdt]
      · exact ih

/-- Witness for C3 amended at the counterexample's parameters: a body already
at belt-axis speed 10 receives no impulse, and after seven 0.3-second ticks
from rest the belt-axis speed is strictly below 10 + 5 * 0.3. -/
theorem c3_speed_cap_witness :
    (applyAcceleration 1 0 5 10 1 (3 / 10) 1 ⟨10, 0⟩ = ⟨10, 0⟩)
    ∧ velInDirection 1 0 (velAfterTicks 1 0 5 10 1 (3 / 10) 1 7)
        < 10 + (5 * 1) * (3 / 10) := by
  have h := c3_speed_cap 1 0 5 10 1 (3 / 10) 1 (by norm_num) (by norm_num)
    (by norm_num) (by norm_num) (by norm_num)
  exact ⟨h.1 ⟨10, 0⟩ (by norm_num [velInDirection]), h.2 7⟩

/-- The per-contact body of the conveyor loop in Game.update: the body's
world position is transformed into the belt's local frame by un-rotating the
offset (cosv = Math.cos(-rot), sinv = Math.sin(-rot)); a positive local Y
picks direction 1 (belt local +X), otherwise -1; then Game.applyAcceleration
runs with cos/sin of conveyor.getAngle() = -rot.  Here c = cos rot and
s = sin rot for the belt body's Rapier rotation rot, so cos(-rot) = c,
sin(-rot) = -s, and the getAngle pair is (cosAngle, sinAngle) = (c, -s). -/
def conveyorContactForce (c s : ℚ) (convPos : Vec2) (accelerationConfig
    maxVelocity dt mass : ℚ) (bodyPos vel : Vec2) : Vec2 :=
  let dx := bodyPos.x - convPos.x
  let dy := bodyPos.y - convPos.y
  let cosv := c
  let sinv := -s
  let localY := dx * sinv + dy * cosv
  let direction : ℚ := if 0 < localY then 1 else -1
  applyAcceleration c (-s) accelerationConfig maxVelocity direction dt mass vel

/-- C8: each frame the force direction is recomputed from the body's position
in the belt's local frame: for a body whose local-Y offset is positive (and
whose belt-axis speed is below the cap, so the impulse fires) the velocity
gains a positive multiple of the belt's local +X axis in world coordinates,
(c, s); for local-Y at most zero (and above the negative cap) it gains a
negative multiple of that axis.  The configured conveyor.acceleration a is
positive here, as in the source's default configuration. -/
theorem c8_conveyor_direction_rule (c s convX convY a mv dt m
    bodyX bodyY velX velY : ℚ) (ha : 0 < a) (hm : m ≠ 0) :
    ((0 < (bodyX - convX) * -s + (bodyY - convY) * c →
        velX * c + velY * s < mv →
        conveyorContactForce c s ⟨convX, convY⟩ a mv dt m
            ⟨bodyX, bodyY⟩ ⟨velX, velY⟩
          = ⟨velX + c * (a * dt), velY + s * (a * dt)⟩))
    ∧ (((bodyX - convX) * -s + (bodyY - convY) * c ≤ 0 →
        -mv < velX * c + velY * s →
        conveyorContactForce c s ⟨convX, convY⟩ a mv dt m
            ⟨bodyX, bodyY⟩ ⟨velX, velY⟩
          = ⟨velX - c * (a * dt), velY - s * (a * dt)⟩)) := by
  constructor
  · intro hlocal hcap
    unfold conveyorContactForce
    dsimp only
    rw [if_pos hlocal]
    rw [applyAcceleration_eval_pos c (-s) a mv 1 dt m ⟨velX, velY⟩
      (by linarith) hm]
    rw [if_pos (by simpa using hcap)]
    congr 1 <;> ring
  · intro hlocal hcap
    unfold conveyorContactForce
    dsimp only
    rw [if_neg (not_lt.mpr hlocal)]
    rw [applyAcceleration_eval_neg c (-s) a mv (-1) dt m ⟨velX, velY⟩
      (by linarith) hm]
    rw [if_pos (by rw [neg_neg]; linarith)]
    congr 1 <;> ring

/-- Witness for C8: a body above the belt centre line (local Y = 4 > 0) with
belt-axis speed 1 below the cap 10 gains the impulse 5 * (1/10) along the
belt's +X axis (1, 0). -/
theorem c8_conveyor_direction_rule_witness :
    conveyorContactForce 1 0 ⟨0, 0⟩ 5 10 (1 / 10) 2 ⟨3, 4⟩ ⟨1, 0⟩
      = ⟨1 + 1 * (5 * (1 / 10)), 0 + 0 * (5 * (1 / 10))⟩ :=
  (c8_conveyor_direction_rule 1 0 0 0 5 10 (1 / 10) 2 3 4 1 0
    (by norm_num) (by norm_num)).1 (by norm_num) (by norm_num)

/-! ## Arc obstacle, collinear degradation (Obstacle.ts, c_shape branch) -/

/-- A physics fixture attached to an obstacle body (Obstacle.ts uses planck
Box and Circle shapes). -/
inductive Fixture
  | box (halfW halfH centerX centerY : ℚ)
  | circle (centerX centerY radius : ℚ)
deriving DecidableEq, Repr

/-- A drawing command issued on the obstacle's graphics object. -/
inductive VisualCmd
  | moveTo (x y : ℚ)
  | lineTo (x y : ℚ)
  | strokePath (width : ℚ)
deriving DecidableEq, Repr

/-- The circumcircle determinant D of the three fit points
(Obstacle.ts, c_shape branch): D = 2*(x1*(y2-y3) + x2*(y3-y1) + x3*(y1-y2)). -/
def circumDeterminant (p1 p2 p3 : PPoint) : ℚ :=
  2 * (p1.x * (p2.y - p3.y) + p2.x * (p3.y - p1.y) + p3.x * (p1.y - p2.y))

/-- The collinearity test of the c_shape branch: Math.abs(D) < 0.001. -/
def cShapeIsCollinear (p1 p2 p3 : PPoint) : Bool :=
  decide (|circumDeterminant p1 p2 p3| < 1 / 1000)

/-- What the constructor produces in the c_shape case when the three points
are collinear. -/
structure CShapeCollinearResult where
  visual : List VisualCmd
  fixtures : List Fixture
deriving DecidableEq, Repr

/-- The c_shape branch of the Obstacle constructor, restricted to its
collinear arm (Obstacle.ts lines 98-107): when |D| < 0.001 the code draws
the straight polyline p1-p2-p3 (moveTo, lineTo, lineTo, stroke of the
configured thickness) and returns from the constructor; no createFixture call
is reached, so the fixture list is empty.  When the points are not collinear
the answer is `none`: the arc arm runs instead and builds 10 box fixtures
along the fitted circle (plus optional cap circles) from trigonometric data
not modelled here, since this claim only concerns the collinear arm. -/
def cShapeCollinearOutcome (p1 p2 p3 : PPoint) (thickness : ℚ) :
    Option CShapeCollinearResult :=
  if cShapeIsCollinear p1 p2 p3 then
    some ⟨[.moveTo p1.x p1.y, .lineTo p2.x p2.y, .lineTo p3.x p3.y,
           .strokePath thickness], []⟩
  else none

/-- C7 as stated: for collinear fit points, the obstacle is built as a
straight multi-segment physical shape, i.e. the constructor produces a
nonempty list of colliders along the straight polyline. -/
def claimC7Statement : Prop :=
  ∀ (p1 p2 p3 : PPoint) (thickness : ℚ),
    cShapeIsCollinear p1 p2 p3 = true →
    ∃ res, cShapeCollinearOutcome p1 p2 p3 thickness = some res
      ∧ res.fixtures ≠ []

/-- C7 counterexample: at the collinear fit points (0,0), (100,100),
(200,200) with thickness 10 the constructor succeeds but creates no physics
fixture at all - the collinear arm only draws the polyline and returns, so
the degraded obstacle has no collision shape. -/
theorem c7_counterexample : ¬ claimC7Statement := by
  intro h
  have hcol : cShapeIsCollinear ⟨0, 0⟩ ⟨100, 100⟩ ⟨200, 200⟩ = true := by
    unfold cShapeIsCollinear circumDeterminant
    rw [decide_eq_true_eq]
    norm_num
  rcases h ⟨0, 0⟩ ⟨100, 100⟩ ⟨200, 200⟩ 10 hcol with ⟨res, hres, hne⟩
  have hout : cShapeCollinearOutcome ⟨0, 0⟩ ⟨100, 100⟩ ⟨200, 200⟩ 10
      = some ⟨[.moveTo 0 0, .lineTo 100 100, .lineTo 200 200,
               .strokePath 10], []⟩ := by
    unfold cShapeCollinearOutcome
    rw [hcol]
    simp
  rw [hout, Option.some.injEq] at hres
  exact hne (by rw [← hres])

/-- C7 amended: when an arc-type obstacle is constructed from three collinear
fit points (|D| < 0.001), construction does not fail but silently degrades:
the obstacle is drawn as the straight polyline through the three points
(visual stroke only) and no physics fixture is created, so the degraded
obstacle has no collision shape.  The first conjunct checks that exactly
collinear points (p1 + t*dir and p1 + u*dir on a common line) always take
this arm: their determinant is 0. -/
theorem c7_collinear_degradation (p1 : PPoint) (dirX dirY t u thickness : ℚ)
    (q1 q2 q3 : PPoint)
    (hcol : cShapeIsCollinear q1 q2 q3 = true) :
    (cShapeIsCollinear p1 ⟨p1.x + t * dirX, p1.y + t * dirY⟩
        ⟨p1.x + u * dirX, p1.y + u * dirY⟩ = true)
    ∧ cShapeCollinearOutcome q1 q2 q3 thickness
        = some ⟨[.moveTo q1.x q1.y, .lineTo q2.x q2.y, .lineTo q3.x q3.y,
                 .strokePath thickness], []⟩ := by
  constructor
  · unfold cShapeIsCollinear
    have hD : circumDeterminant p1 ⟨p1.x + t * dirX, p1.y + t * dirY⟩
        ⟨p1.x + u * dirX, p1.y + u * dirY⟩ = 0 := by
      unfold circumDeterminant
      dsimp only
      ring
    rw [hD]
    norm_num
  · unfold cShapeCollinearOutcome
    rw [hcol]
    simp

/-- Witness for C7 amended at concrete collinear points: (0,0), (3,4), (6,8)
lie on one line through the origin, the branch is taken, and the outcome is
the straight polyline visual with an empty fixture list. -/
theorem c7_collinear_degradation_witness :
    cShapeIsCollinear ⟨0, 0⟩ ⟨3, 4⟩ ⟨6, 8⟩ = true
    ∧ cShapeCollinearOutcome ⟨0, 0⟩ ⟨3, 4⟩ ⟨6, 8⟩ 12
        = some ⟨[.moveTo 0 0, .lineTo 3 4, .lineTo 6 8,
                 .strokePath 12], []⟩ := by
  have hcol : cShapeIsCollinear ⟨0, 0⟩ ⟨3, 4⟩ ⟨6, 8⟩ = true := by
    unfold cShapeIsCollinear circumDeterminant
    rw [decide_eq_true_eq]
    norm_num
  exact ⟨hcol,
    (c7_collinear_degradation ⟨0, 0⟩ 0 0 0 0 12 ⟨0, 0⟩ ⟨3, 4⟩ ⟨6, 8⟩ hcol).2⟩

/-! ## The Game orchestrator (Game class, src/unnamed/part_001)

The model keeps the fields of the Game object that the event-processing,
boundary, win/loss, reload-timer, level-clearing and ice-melt code reads or
writes.  Collider-handle maps are association lists from a collider handle to
the looked-up object; the handle maps for conveyors, drawn lines, falling
objects and seesaws resolve to the identity of the rigid body the source
reads off the looked-up object (.body / .plankBody).  setTimeout is modelled
by an Option holding the timer handle plus a fresh-handle counter.  The ice
blocks live in one list and their handle map is the lookup by collider
handle in that list (the source keeps the map entries and the array in sync
for live blocks, and both refer to the same objects). -/

/-- A Ball as seen by the Game class: its collider handle
(ball.getColliderHandle()), the identity of its rigid body (ball.body), its
physics position (ball.body.translation()) and its pixel position
(ball.graphics.position). -/
structure Ball where
  handle : Nat
  bodyId : Nat
  physPos : Vec2
  graphicsPos : Vec2
deriving DecidableEq, Repr

/-- An IceBlock: collider handle, melt flag, melt progress and melt duration
(IceBlock.ts fields). -/
structure IceB where
  handle : Nat
  isMelting : Bool
  meltProgress : ℚ
  meltTime : ℚ
deriving DecidableEq, Repr

/-- The GameState constants of part_001. -/
inductive GState
  | ready
  | playing
  | won
  | lost
deriving DecidableEq, Repr

/-- A drained Rapier collision event (handle1, handle2, started). -/
structure CEvent where
  h1 : Nat
  h2 : Nat
  started : Bool
deriving DecidableEq, Repr

/-- An observable gameplay output of the tick: `win` is the invocation of
handleWin and carries its (x, y) pixel arguments; the explosion effects carry
the clamped pixel positions handed to the EffectManager. -/
inductive GEvent
  | win (x y : ℚ)
  | ringExplosion (x y : ℚ)
  | particleExplosion (x y : ℚ)
deriving DecidableEq, Repr

/-- The mutable state of the Game object used by the modelled methods. -/
structure GameM where
  gameState : GState
  balls : List Ball
  ballColliderHandles : List (Nat × Ball)
  iceBlocks : List IceB
  laserColliderHandles : List Nat
  conveyorHandles : List (Nat × Nat)
  drawnLineColliderHandles : List (Nat × Nat)
  fallingObjectColliderHandles : List (Nat × Nat)
  seesawColliderHandles : List (Nat × Nat)
  activeConveyorContacts : List (Nat × Nat)
  autoRestartTimeout : Option Nat
  nextTimerId : Nat
  hasStarted : Bool
deriving DecidableEq, Repr

/-- Map.get on an association list keyed by collider handle. -/
def mapGet {α : Type} : List (Nat × α) → Nat → Option α
  | [], _ => none
  | kv :: rest, h => if kv.1 = h then some kv.2 else mapGet rest h

/-- Game.handleWin: set the state to WON, emit the effects at the clamped
position, and schedule the auto-restart timer (unconditionally overwriting
the timeout field).  The `win` event materialises the handleWin call itself
with its unclamped pixel arguments. -/
def handleWin (st : GameM) (x y : ℚ) : GameM × List GEvent :=
  let clampedX := max 0 (min x GAME_WIDTH)
  let clampedY := max 0 (min y GAME_HEIGHT)
  ({ st with gameState := .won,
             autoRestartTimeout := some st.nextTimerId,
             nextTimerId := st.nextTimerId + 1 },
   [.win x y, .ringExplosion clampedX clampedY,
    .particleExplosion clampedX clampedY])

/-- Game.handleLoss: a no-op when the ball is not in the live list; otherwise
set the state to LOST, remove the ball from the live list, delete its handle
from the ball collider map, drop its body from the active conveyor contacts,
emit the effects at the clamped pixel position of the ball, and schedule the
auto-restart timer only if none is pending. -/
def handleLoss (st : GameM) (ball : Ball) : GameM × List GEvent :=
  if ball ∈ st.balls then
    let pixelPos := toPixels ball.physPos.x ball.physPos.y
    let clampedX := max 0 (min pixelPos.x GAME_WIDTH)
    let clampedY := max 0 (min pixelPos.y GAME_HEIGHT)
    let timers : Option Nat × Nat :=
      match st.autoRestartTimeout with
      | some t => (some t, st.nextTimerId)
      | none => (some st.nextTimerId, st.nextTimerId + 1)
    ({ st with gameState := .lost,
               balls := st.balls.erase ball,
               ballColliderHandles :=
                 st.ballColliderHandles.filter (fun kv => kv.1 ≠ ball.handle),
               activeConveyorContacts :=
                 st.activeConveyorContacts.filter
                   (fun cb => cb.1 ≠ ball.bodyId),
               autoRestartTimeout := timers.1,
               nextTimerId := timers.2 },
     [.ringExplosion clampedX clampedY, .particleExplosion clampedX clampedY])
  else (st, [])

/-- The ball-ball branch of the drainCollisionEvents callback: when both
handles resolve in the ball collider map, handleWin runs on the midpoint of
the two ball positions converted to pixels. -/
def winPhase (st : GameM) (ball1 ball2 : Option Ball) : GameM × List GEvent :=
  match ball1, ball2 with
  | some b1, some b2 =>
      let midX := (b1.physPos.x + b2.physPos.x) / 2
      let midY := (b1.physPos.y + b2.physPos.y) / 2
      let pixelPos := toPixels midX midY
      handleWin st pixelPos.x pixelPos.y
  | _, _ => (st, [])

/-- IceBlock.startMelting: start only if not already melting. -/
def IceBlock.startMelting (ib : IceB) : IceB :=
  if ib.isMelting then ib else { ib with isMelting := true, meltProgress := 0 }

/-- The ice branch of the callback for one handle: if the handle resolves to
an ice block that is not yet melting, start melting it (the map shares the
block objects with the iceBlocks list, so the list entry is updated). -/
def icePhase (st : GameM) (h : Nat) : GameM :=
  { st with iceBlocks := st.iceBlocks.map (fun ib =>
      if ib.handle = h ∧ ib.isMelting = false then IceBlock.startMelting ib
      else ib) }

/-- The laser branch of the callback: ballHitByLaser = (laser1 && ball2) ||
(laser2 && ball1); hitBall = ball1 || ball2; on a hit, handleLoss runs.  The
ball1/ball2 arguments are the lookups made at the top of the callback. -/
def laserPhase (st : GameM) (ball1 ball2 : Option Ball) (h1 h2 : Nat) :
    GameM × List GEvent :=
  let laser1 := decide (h1 ∈ st.laserColliderHandles)
  let laser2 := decide (h2 ∈ st.laserColliderHandles)
  let ballHitByLaser := (laser1 && ball2.isSome) || (laser2 && ball1.isSome)
  if ballHitByLaser then
    match ball1.orElse (fun _ => ball2) with
    | some hitBall => handleLoss st hitBall
    | none => (st, [])
  else (st, [])

/-- One arm of the conveyor pair chain: a contact (bodyId, conveyorId) when
both lookups succeed. -/
def pairContact (conv : Option Nat) (bodyId : Option Nat) :
    Option (Nat × Nat) :=
  match conv, bodyId with
  | some c, some b => some (b, c)
  | _, _ => none

/-- The contact-pair resolution of the callback (fresh lookups on the current
maps, in the source's else-if order: conveyor against ball, drawn line,
falling object, seesaw plank). -/
def resolveConveyorContact (st : GameM) (h1 h2 : Nat) : Option (Nat × Nat) :=
  let conv1 := mapGet st.conveyorHandles h1
  let conv2 := mapGet st.conveyorHandles h2
  let convBall1 := (mapGet st.ballColliderHandles h1).map Ball.bodyId
  let convBall2 := (mapGet st.ballColliderHandles h2).map Ball.bodyId
  let convLine1 := mapGet st.drawnLineColliderHandles h1
  let convLine2 := mapGet st.drawnLineColliderHandles h2
  let convFall1 := mapGet st.fallingObjectColliderHandles h1
  let convFall2 := mapGet st.fallingObjectColliderHandles h2
  let convSeesaw1 := mapGet st.seesawColliderHandles h1
  let convSeesaw2 := mapGet st.seesawColliderHandles h2
  (pairContact conv1 convBall2).orElse fun _ =>
  (pairContact conv2 convBall1).orElse fun _ =>
  (pairContact conv1 convLine2).orElse fun _ =>
  (pairContact conv2 convLine1).orElse fun _ =>
  (pairContact conv1 convFall2).orElse fun _ =>
  (pairContact conv2 convFall1).orElse fun _ =>
  (pairContact conv1 convSeesaw2).orElse fun _ =>
  (pairContact conv2 convSeesaw1)

/-- The contact-set change of the callback: on start, push the (body,
conveyor) pair unless it is already present; on end, filter it out. -/
def applyContactChange (st : GameM) (contact : Option (Nat × Nat))
    (started : Bool) : GameM :=
  match contact with
  | none => st
  | some cb =>
      if started then
        if cb ∈ st.activeConveyorContacts then st
        else { st with activeConveyorContacts :=
                 st.activeConveyorContacts ++ [cb] }
      else
        { st with activeConveyorContacts :=
            st.activeConveyorContacts.filter (fun p => p ≠ cb) }

/-- The conveyor branch of the callback. -/
def conveyorPhase (st : GameM) (h1 h2 : Nat) (started : Bool) : GameM :=
  applyContactChange st (resolveConveyorContact st h1 h2) started

/-- One drainCollisionEvents callback invocation (part_001 lines 470-561):
look both handles up in the ball map once; on a start event run the win,
ice and laser branches in order; the conveyor branch runs for start and end
events alike, with fresh lookups. -/
def processEvent (st : GameM) (ev : CEvent) : GameM × List GEvent :=
  let ball1 := mapGet st.ballColliderHandles ev.h1
  let ball2 := mapGet st.ballColliderHandles ev.h2
  if ev.started then
    let r1 := winPhase st ball1 ball2
    let st2 := icePhase (icePhase r1.1 ev.h1) ev.h2
    let r3 := laserPhase st2 ball1 ball2 ev.h1 ev.h2
    let st4 := conveyorPhase r3.1 ev.h1 ev.h2 true
    (st4, r1.2 ++ r3.2)
  else
    (conveyorPhase st ev.h1 ev.h2 false, [])

/-- The event drain: callbacks run in queue order, outputs accumulate. -/
def processEvents : GameM → List CEvent → GameM × List GEvent
  | st, [] => (st, [])
  | st, ev :: rest =>
      let r1 := processEvent st ev
      let r2 := processEvents r1.1 rest
      (r2.1, r1.2 ++ r2.2)

/-- Game.processCollisions: an early return unless the state is PLAYING,
then the drain. -/
def processCollisions (st : GameM) (events : List CEvent) :
    GameM × List GEvent :=
  if st.gameState = .playing then processEvents st events else (st, [])

/-- Game.checkBoundaries' per-ball test: the pixel position of the ball's
graphics against margins of two ball radii on the left, right and bottom
(no top limit). -/
def ballOutOfBounds (ball : Ball) : Bool :=
  let margin := BALL_RADIUS * 2
  decide (ball.graphicsPos.x < -margin)
    || decide (ball.graphicsPos.x > GAME_WIDTH + margin)
    || decide (ball.graphicsPos.y > GAME_HEIGHT + margin)

/-- Game.checkBoundaries: scan the live balls in order and call handleLoss on
the first out-of-bounds one, then return. -/
def checkBoundaries (st : GameM) : GameM × List GEvent :=
  match st.balls.find? ballOutOfBounds with
  | some ball => handleLoss st ball
  | none => (st, [])

/-- The solver step on one ball: the abstract solver f moves the body's
physics position; the graphics position is untouched (it is synced later in
the tick). -/
def stepBall (f : Vec2 → Vec2) (b : Ball) : Ball :=
  { b with physPos := f b.physPos }

/-- physicsWorld.step as seen by the ball objects: every live ball body moves
under the abstract solver.  The collider map aliases the same ball objects,
so both views move together. -/
def physicsStepBalls (f : Vec2 → Vec2) (st : GameM) : GameM :=
  { st with balls := st.balls.map (stepBall f),
            ballColliderHandles :=
              st.ballColliderHandles.map (fun kv => (kv.1, stepBall f kv.2)) }

/-- Ball.update: copy the physics pose into the graphics position. -/
def syncBall (b : Ball) : Ball :=
  { b with graphicsPos := toPixels b.physPos.x b.physPos.y }

/-- The graphics sync pass of the tick over the live balls (aliased by the
collider map). -/
def syncBalls (st : GameM) : GameM :=
  { st with balls := st.balls.map syncBall,
            ballColliderHandles :=
              st.ballColliderHandles.map (fun kv => (kv.1, syncBall kv.2)) }

/-- IceBlock.update (IceBlock.ts lines 79-102).  Its first parameter is the
canvas scaleFactor (used only for the visual alignment), its second the
elapsed seconds; when melting, meltProgress advances by deltaTime/meltTime
and the block reports true once the progress reaches 1. -/
def IceBlock.update (ib : IceB) (scaleFactor deltaTime : ℚ) : IceB × Bool :=
  if ib.isMelting = false then (ib, false)
  else
    let ib2 : IceB := { ib with meltProgress := ib.meltProgress + deltaTime / ib.meltTime }
    if 1 ≤ ib2.meltProgress then (ib2, true) else (ib2, false)

/-- The ice-block pass of Game.update (part_001 lines 758-766): the source
iterates backwards and splices out every block whose update call returns
true, which amounts to updating each block and dropping the melted ones.
The source invokes iceBlock.update(dt) with a single argument, so dt binds
the scaleFactor parameter and deltaTime keeps its default value 0. -/
def iceBlocksUpdatePhase (dt : ℚ) (st : GameM) : GameM :=
  { st with iceBlocks := st.iceBlocks.filterMap (fun ib =>
      let r := IceBlock.update ib dt 0
      if r.2 then none else some r.1) }

/-- Game.update, the per-frame tick (part_001 lines 677-778).  The laser flip
animation, seesaw spring forces, the conveyor impulses on solver bodies and
the graphics syncs of non-ball entities act on objects outside this model or
through the abstract solver f; the solver steps with the clamped delta while
the gameplay code below receives the raw dt. -/
def Game.update (f : Vec2 → Vec2) (events : List CEvent) (dt : ℚ)
    (st : GameM) : GameM × List GEvent :=
  if st.gameState = .won ∨ st.gameState = .lost then (st, [])
  else
    let st1 := physicsStepBalls f st
    let r2 :=
      if st1.gameState = .playing then
        let ra := processCollisions st1 events
        let rb := checkBoundaries ra.1
        (rb.1, ra.2 ++ rb.2)
      else (st1, [])
    let st3 := syncBalls r2.1
    let st4 := iceBlocksUpdatePhase dt st3
    (st4, r2.2)

/-- Game.clearLevel (part_001 lines 279-360): cancel any pending
auto-restart timeout first, then destroy every entity, clear every handle
map and the contact set, and reset the session to READY. -/
def clearLevel (st : GameM) : GameM :=
  { st with autoRestartTimeout := none,
            balls := [],
            ballColliderHandles := [],
            fallingObjectColliderHandles := [],
            hasStarted := false,
            gameState := .ready,
            iceBlocks := [],
            laserColliderHandles := [],
            seesawColliderHandles := [],
            conveyorHandles := [],
            activeConveyorContacts := [],
            drawnLineColliderHandles := [] }

/-- Game.loadLevel: clear the current level (cancelling a pending reload)
before the new entities are spawned; the two balls are then pushed and their
collider handles registered.  The other entity spawns touch only fields the
reload timer never depends on. -/
def loadLevel (st : GameM) (blueBall pinkBall : Ball) : GameM :=
  let st1 := clearLevel st
  { st1 with balls := [blueBall, pinkBall],
             ballColliderHandles :=
               [(blueBall.handle, blueBall), (pinkBall.handle, pinkBall)] }

/-! ## C10: the loss handler is a no-op for an absent ball -/

/-- C10: calling Game.handleLoss for a ball that is not in the live ball
list leaves the whole game state - session state, ball list, collider
lookup tables, conveyor contact set and pending-reload timer - unchanged and
emits nothing, so repeated loss events naming an already-removed ball within
one drain are safe. -/
theorem c10_loss_noop (st : GameM) (ball : Ball) (h : ball ∉ st.balls) :
    handleLoss st ball = (st, []) := by
  unfold handleLoss
  rw [if_neg h]

/-- Witness for C10: a ball with an unused handle is not in the concrete
state's live list and its loss call returns the state unchanged. -/
theorem c10_loss_noop_witness :
    (⟨9, 99, ⟨0, 0⟩, ⟨0, 0⟩⟩ : Ball)
        ∉ ({ gameState := .playing,
             balls := [⟨1, 101, ⟨1, 1⟩, ⟨60, -60⟩⟩],
             ballColliderHandles := [(1, ⟨1, 101, ⟨1, 1⟩, ⟨60, -60⟩⟩)],
             iceBlocks := [], laserColliderHandles := [],
             conveyorHandles := [], drawnLineColliderHandles := [],
             fallingObjectColliderHandles := [], seesawColliderHandles := [],
             activeConveyorContacts := [], autoRestartTimeout := none,
             nextTimerId := 0, hasStarted := true } : GameM).balls
    ∧ handleLoss
        { gameState := .playing,
          balls := [⟨1, 101, ⟨1, 1⟩, ⟨60, -60⟩⟩],
          ballColliderHandles := [(1, ⟨1, 101, ⟨1, 1⟩, ⟨60, -60⟩⟩)],
          iceBlocks := [], laserColliderHandles := [],
          conveyorHandles := [], drawnLineColliderHandles := [],
          fallingObjectColliderHandles := [], seesawColliderHandles := [],
          activeConveyorContacts := [], autoRestartTimeout := none,
          nextTimerId := 0, hasStarted := true }
        ⟨9, 99, ⟨0, 0⟩, ⟨0, 0⟩⟩
      = ({ gameState := .playing,
           balls := [⟨1, 101, ⟨1, 1⟩, ⟨60, -60⟩⟩],
           ballColliderHandles := [(1, ⟨1, 101, ⟨1, 1⟩, ⟨60, -60⟩⟩)],
           iceBlocks := [], laserColliderHandles := [],
           conveyorHandles := [], drawnLineColliderHandles := [],
           fallingObjectColliderHandles := [], seesawColliderHandles := [],
           activeConveyorContacts := [], autoRestartTimeout := none,
           nextTimerId := 0, hasStarted := true }, []) := by
  have hmem : (⟨9, 99, ⟨0, 0⟩, ⟨0, 0⟩⟩ : Ball)
      ∉ [(⟨1, 101, ⟨1, 1⟩, ⟨60, -60⟩⟩ : Ball)] := by
    simp
  exact ⟨hmem, c10_loss_noop _ _ hmem⟩

/-! ## C9: at most one pending deferred reload -/

/-- C9: the deferred reload is never double-scheduled: a loss keeps an
already pending timer unchanged (so losses before the reload fires schedule
it exactly once); a first effective loss from a no-timer state schedules the
fresh timer; clearing the level - the first step of loading a level -
cancels any pending timer, and a full level load ends with no pending
timer. -/
theorem c9_single_pending_reload :
    (∀ (st : GameM) (ball : Ball) (t : Nat),
        st.autoRestartTimeout = some t →
        (handleLoss st ball).1.autoRestartTimeout = some t)
    ∧ (∀ (st : GameM) (ball : Ball),
        st.autoRestartTimeout = none →
        ball ∈ st.balls →
        (handleLoss st ball).1.autoRestartTimeout = some st.nextTimerId)
    ∧ (∀ st : GameM, (clearLevel st).autoRestartTimeout = none)
    ∧ (∀ (st : GameM) (blue pink : Ball),
        (loadLevel st blue pink).autoRestartTimeout = none) := by
  refine ⟨?_, ?_, fun st => rfl, fun st blue pink => rfl⟩
  · intro st ball t ht
    unfold handleLoss
    by_cases hmem : ball ∈ st.balls
    · rw [if_pos hmem]
      dsimp only
      rw [ht]
    · rw [if_neg hmem]
      exact ht
  · intro st ball hnone hmem
    unfold handleLoss
    rw [if_pos hmem]
    dsimp only
    rw [hnone]

/-- Witness for C9: in a concrete lost state with timer handle 3 pending, a
further loss of the still-live ball keeps the pending timer at 3. -/
theorem c9_single_pending_reload_witness :
    ({ gameState := .lost,
       balls := [⟨1, 101, ⟨1, 1⟩, ⟨60, -60⟩⟩],
       ballColliderHandles := [(1, ⟨1, 101, ⟨1, 1⟩, ⟨60, -60⟩⟩)],
       iceBlocks := [], laserColliderHandles := [],
       conveyorHandles := [], drawnLineColliderHandles := [],
       fallingObjectColliderHandles := [], seesawColliderHandles := [],
       activeConveyorContacts := [], autoRestartTimeout := some 3,
       nextTimerId := 4, hasStarted := true } : GameM).autoRestartTimeout
      = some 3
    ∧ (handleLoss
        { gameState := .lost,
          balls := [⟨1, 101, ⟨1, 1⟩, ⟨60, -60⟩⟩],
          ballColliderHandles := [(1, ⟨1, 101, ⟨1, 1⟩, ⟨60, -60⟩⟩)],
          iceBlocks := [], laserColliderHandles := [],
          conveyorHandles := [], drawnLineColliderHandles := [],
          fallingObjectColliderHandles := [], seesawColliderHandles := [],
          activeConveyorContacts := [], autoRestartTimeout := some 3,
          nextTimerId := 4, hasStarted := true }
        ⟨1, 101, ⟨1, 1⟩, ⟨60, -60⟩⟩).1.autoRestartTimeout = some 3 :=
  ⟨rfl, c9_single_pending_reload.1 _ _ 3 rfl⟩

/-! ## C4: the ice-melt pipeline (code bug) -/

/-- A melting ice block at progress 0 with a one-second melt duration. -/
def c4IceBlock : IceB := ⟨7, true, 0, 1⟩

/-- A playing state whose only entity is the melting ice block. -/
def c4State : GameM :=
  { gameState := .playing,
    balls := [],
    ballColliderHandles := [],
    iceBlocks := [c4IceBlock],
    laserColliderHandles := [],
    conveyorHandles := [],
    drawnLineColliderHandles := [],
    fallingObjectColliderHandles := [],
    seesawColliderHandles := [],
    activeConveyorContacts := [],
    autoRestartTimeout := none,
    nextTimerId := 0,
    hasStarted := true }

/-- C4 (code bug): Game.update invokes iceBlock.update(dt) with a single
argument, but IceBlock.update's first parameter is the canvas scaleFactor and
its elapsed-time parameter deltaTime defaults to 0 - so the game's ice pass
adds 0/meltTime to meltProgress every frame.  Over 100 half-second frames
the melting block's progress stays at 0 and the block is never reported
melted or removed (the whole state is a fixed point of the tick), while a
direct IceBlock.update call with deltaTime = 0.5 seconds, as the claim and
IceBlock's own documentation describe, advances meltProgress to 0.5. -/
theorem c4_melt_never_advances :
    ((fun st => (Game.update id [] (1 / 2) st).1)^[100] c4State = c4State)
    ∧ (Game.update id [] (1 / 2) c4State).1.iceBlocks = [c4IceBlock]
    ∧ (IceBlock.update c4IceBlock (1 / 2) 0).1.meltProgress = 0
    ∧ (IceBlock.update c4IceBlock 1 (1 / 2)).1.meltProgress = 1 / 2 := by
  have hblock : IceBlock.update c4IceBlock (1 / 2) 0
      = ({ c4IceBlock with meltProgress := 0 + 0 / 1 }, false) := by
    unfold IceBlock.update c4IceBlock
    norm_num
  have hfix : (Game.update id [] (1 / 2) c4State).1 = c4State := by
    unfold Game.update
    rw [if_neg (by simp [c4State])]
    dsimp only
    rw [if_pos (by simp [physicsStepBalls, c4State])]
    unfold processCollisions
    rw [if_pos (by simp [physicsStepBalls, c4State])]
    unfold physicsStepBalls c4State checkBoundaries processEvents
    simp only [List.map_nil, List.find?_nil]
    unfold syncBalls iceBlocksUpdatePhase
    simp only [List.map_nil, List.filterMap_cons, List.filterMap_nil]
    rw [hblock]
    simp [c4IceBlock]
  refine ⟨?_, ?_, ?_, ?_⟩
  · exact Function.iterate_fixed hfix 100
  · rw [hfix]
    rfl
  · rw [hblock]
    unfold c4IceBlock
    norm_num
  · unfold IceBlock.update c4IceBlock
    norm_num

/-! ## C1: ball-ball collision wins -/

lemma handleWin_fields (st : GameM) (x y : ℚ) :
    (handleWin st x y).1.gameState = .won
    ∧ (handleWin st x y).1.ballColliderHandles = st.ballColliderHandles
    ∧ (handleWin st x y).1.laserColliderHandles = st.laserColliderHandles
    ∧ (handleWin st x y).1.balls = st.balls :=
  ⟨rfl, rfl, rfl, rfl⟩

lemma winPhase_fields (st : GameM) (b1 b2 : Option Ball) :
    (winPhase st b1 b2).1.ballColliderHandles = st.ballColliderHandles
    ∧ (winPhase st b1 b2).1.laserColliderHandles = st.laserColliderHandles
    ∧ (winPhase st b1 b2).1.balls = st.balls := by
  cases b1 <;> cases b2 <;> exact ⟨rfl, rfl, rfl⟩

lemma winPhase_won (st : GameM) (b1 b2 : Option Ball)
    (h : st.gameState = .won) : (winPhase st b1 b2).1.gameState = .won := by
  cases b1 <;> cases b2 <;> first | exact h | rfl

lemma icePhase_fields (st : GameM) (h : Nat) :
    (icePhase st h).gameState = st.gameState
    ∧ (icePhase st h).ballColliderHandles = st.ballColliderHandles
    ∧ (icePhase st h).laserColliderHandles = st.laserColliderHandles
    ∧ (icePhase st h).balls = st.balls :=
  ⟨rfl, rfl, rfl, rfl⟩

lemma conveyorPhase_fields (st : GameM) (h1 h2 : Nat) (started : Bool) :
    (conveyorPhase st h1 h2 started).gameState = st.gameState
    ∧ (conveyorPhase st h1 h2 started).ballColliderHandles
        = st.ballColliderHandles
    ∧ (conveyorPhase st h1 h2 started).laserColliderHandles
        = st.laserColliderHandles
    ∧ (conveyorPhase st h1 h2 started).balls = st.balls := by
  unfold conveyorPhase applyContactChange
  rcases resolveConveyorContact st h1 h2 with _ | cb
  · exact ⟨rfl, rfl, rfl, rfl⟩
  · dsimp only
    split_ifs <;> exact ⟨rfl, rfl, rfl, rfl⟩

lemma laserPhase_of_not_hit (st : GameM) (b1 b2 : Option Ball) (h1 h2 : Nat)
    (hno : ((decide (h1 ∈ st.laserColliderHandles) && b2.isSome)
        || (decide (h2 ∈ st.laserColliderHandles) && b1.isSome)) = false) :
    laserPhase st b1 b2 h1 h2 = (st, []) := by
  unfold laserPhase
  dsimp only
  rw [hno]
  rfl

/-- An event whose start would route to the laser-loss branch with respect to
the given state's lookup tables: one handle is a laser and the other resolves
to a live ball. -/
def startedLaserBallEvent (st : GameM) (ev : CEvent) : Prop :=
  ev.started = true ∧
    ((ev.h1 ∈ st.laserColliderHandles
        ∧ (mapGet st.ballColliderHandles ev.h2).isSome = true)
     ∨ (ev.h2 ∈ st.laserColliderHandles
        ∧ (mapGet st.ballColliderHandles ev.h1).isSome = true))

lemma processEvent_preserves_won (st0 st : GameM) (ev : CEvent)
    (hwon : st.gameState = .won)
    (hsub : ∀ h b, mapGet st.ballColliderHandles h = some b →
        (mapGet st0.ballColliderHandles h).isSome = true)
    (hlas : st.laserColliderHandles = st0.laserColliderHandles)
    (hnl : ¬ startedLaserBallEvent st0 ev) :
    (processEvent st ev).1.gameState = .won
    ∧ (∀ h b, mapGet (processEvent st ev).1.ballColliderHandles h = some b →
        (mapGet st0.ballColliderHandles h).isSome = true)
    ∧ (processEvent st ev).1.laserColliderHandles = st0.laserColliderHandles
    ∧ (processEvent st ev).1.balls = st.balls := by
  unfold processEvent
  dsimp only
  cases hst : ev.started with
  | false =>
    rw [if_neg (by simp)]
    dsimp only
    rcases conveyorPhase_fields st ev.h1 ev.h2 false with ⟨hg, hb, hl, hba⟩
    refine ⟨by rw [hg, hwon], ?_, by rw [hl, hlas], by rw [hba]⟩
    intro h b hmem
    rw [hb] at hmem
    exact hsub h b hmem
  | true =>
    rw [if_pos rfl]
    dsimp only
    set b1 := mapGet st.ballColliderHandles ev.h1 with hb1def
    set b2 := mapGet st.ballColliderHandles ev.h2 with hb2def
    set stW := (winPhase st b1 b2).1 with hWdef
    set st2 := icePhase (icePhase stW ev.h1) ev.h2 with h2def
    have hWf := winPhase_fields st b1 b2
    have hi1 := icePhase_fields stW ev.h1
    have hi2 := icePhase_fields (icePhase stW ev.h1) ev.h2
    have hst2las : st2.laserColliderHandles = st0.laserColliderHandles := by
      rw [h2def, hi2.2.2.1, hi1.2.2.1, hWf.2.1, hlas]
    have hst2bch : st2.ballColliderHandles = st.ballColliderHandles := by
      rw [h2def, hi2.2.1, hi1.2.1, hWf.1]
    have hst2won : st2.gameState = .won := by
      rw [h2def, hi2.1, hi1.1]
      exact winPhase_won st b1 b2 hwon
    have hst2balls : st2.balls = st.balls := by
      rw [h2def, hi2.2.2.2, hi1.2.2.2, hWf.2.2]
    have hno : ((decide (ev.h1 ∈ st2.laserColliderHandles) && b2.isSome)
        || (decide (ev.h2 ∈ st2.laserColliderHandles) && b1.isSome))
          = false := by
      rw [hst2las]
      cases hcase : ((decide (ev.h1 ∈ st0.laserColliderHandles) && b2.isSome)
          || (decide (ev.h2 ∈ st0.laserColliderHandles) && b1.isSome)) with
      | false => rfl
      | true =>
        exfalso
        apply hnl
        refine ⟨hst, ?_⟩
        simp only [Bool.or_eq_true, Bool.and_eq_true] at hcase
        rcases hcase with ⟨hla, hso⟩ | ⟨hla, hso⟩
        · left
          refine ⟨by simpa using hla, ?_⟩
          rcases Option.isSome_iff_exists.mp hso with ⟨b, hb⟩
          exact hsub ev.h2 b (by rw [← hb2def, hb])
        · right
          refine ⟨by simpa using hla, ?_⟩
          rcases Option.isSome_iff_exists.mp hso with ⟨b, hb⟩
          exact hsub ev.h1 b (by rw [← hb1def, hb])
    rw [laserPhase_of_not_hit st2 b1 b2 ev.h1 ev.h2 hno]
    dsimp only
    rcases conveyorPhase_fields st2 ev.h1 ev.h2 true with ⟨hg, hb, hl, hba⟩
    refine ⟨by rw [hg, hst2won], ?_, by rw [hl, hst2las],
      by rw [hba, hst2balls]⟩
    intro h b hmem
    rw [hb, hst2bch] at hmem
    exact hsub h b hmem

lemma processEvents_preserves_won (st0 : GameM) :
    ∀ (evs : List CEvent) (st : GameM),
      st.gameState = .won →
      (∀ h b, mapGet st.ballColliderHandles h = some b →
          (mapGet st0.ballColliderHandles h).isSome = true) →
      st.laserColliderHandles = st0.laserColliderHandles →
      (∀ ev ∈ evs, ¬ startedLaserBallEvent st0 ev) →
      (processEvents st evs).1.gameState = .won
        ∧ (processEvents st evs).1.balls = st.balls
  | [], st, hwon, _, _, _ => ⟨hwon, rfl⟩
  | ev :: rest, st, hwon, hsub, hlas, hnl => by
    have hstep := processEvent_preserves_won st0 st ev hwon hsub hlas
      (hnl ev (by simp))
    have hrec := processEvents_preserves_won st0 rest (processEvent st ev).1
      hstep.1 hstep.2.1 hstep.2.2.1 (fun e he => hnl e (by simp [he]))
    exact ⟨hrec.1, hrec.2.trans hstep.2.2.2⟩

/-- C1 as stated: while Playing, the drain of a collision-start event whose
two handles both resolve to balls leaves the session Won at the end of the
tick's event processing, with the win event carrying the midpoint of the
two balls' positions converted to presentation space. -/
def claimC1Statement : Prop :=
  ∀ (st : GameM) (events : List CEvent) (h1 h2 : Nat) (b1 b2 : Ball),
    st.gameState = .playing →
    (⟨h1, h2, true⟩ : CEvent) ∈ events →
    mapGet st.ballColliderHandles h1 = some b1 →
    mapGet st.ballColliderHandles h2 = some b2 →
    (processCollisions st events).1.gameState = .won
    ∧ GEvent.win (toPixels ((b1.physPos.x + b2.physPos.x) / 2)
          ((b1.physPos.y + b2.physPos.y) / 2)).x
        (toPixels ((b1.physPos.x + b2.physPos.x) / 2)
          ((b1.physPos.y + b2.physPos.y) / 2)).y
      ∈ (processCollisions st events).2

/-- The two live balls of the C1 counterexample scenario. -/
def c1BallA : Ball := ⟨1, 101, ⟨1, 2⟩, ⟨60, -120⟩⟩

/-- The second ball of the C1 counterexample scenario. -/
def c1BallB : Ball := ⟨2, 102, ⟨3, 4⟩, ⟨180, -240⟩⟩

/-- A playing state with the two balls and one laser (collider handle 5). -/
def c1State : GameM :=
  { gameState := .playing,
    balls := [c1BallA, c1BallB],
    ballColliderHandles := [(1, c1BallA), (2, c1BallB)],
    iceBlocks := [],
    laserColliderHandles := [5],
    conveyorHandles := [],
    drawnLineColliderHandles := [],
    fallingObjectColliderHandles := [],
    seesawColliderHandles := [],
    activeConveyorContacts := [],
    autoRestartTimeout := none,
    nextTimerId := 0,
    hasStarted := true }

/-- C1 counterexample: when the same drain delivers the ball-ball start
event first and then a laser-ball start event (the ball overlaps the other
ball and a laser in the same solver step), handleWin fires but the later
laser event still runs handleLoss - the callback never rechecks the session
state - so the tick ends Lost, not Won. -/
theorem c1_counterexample : ¬ claimC1Statement := by
  intro h
  have hinst := h c1State [⟨1, 2, true⟩, ⟨5, 1, true⟩] 1 2 c1BallA c1BallB
    rfl (by simp) (by simp [c1State, mapGet]) (by simp [c1State, mapGet])
  have hlost : (processCollisions c1State
      [⟨1, 2, true⟩, ⟨5, 1, true⟩]).1.gameState = .lost := by
    simp [processCollisions, processEvents, processEvent, winPhase, handleWin,
      icePhase, laserPhase, handleLoss, conveyorPhase, applyContactChange,
      resolveConveyorContact, pairContact, mapGet, c1State, c1BallA, c1BallB]
  rw [hlost] at hinst
  exact absurd hinst.1 (by simp)

/-- The drain-level core of the amended C1 claim: when the first drained
event is a collision start whose two handles resolve to balls (and are not
laser handles) and no later drained event names a laser-ball pair, the event
processing ends Won with the win event emitted, and the live ball list is
untouched by the drain. -/
lemma processCollisions_win_drain (st : GameM) (h1 h2 : Nat) (b1 b2 : Ball)
    (rest : List CEvent)
    (hplay : st.gameState = .playing)
    (hb1 : mapGet st.ballColliderHandles h1 = some b1)
    (hb2 : mapGet st.ballColliderHandles h2 = some b2)
    (hl1 : h1 ∉ st.laserColliderHandles)
    (hl2 : h2 ∉ st.laserColliderHandles)
    (hrest : ∀ ev ∈ rest, ¬ startedLaserBallEvent st ev) :
    (processCollisions st (⟨h1, h2, true⟩ :: rest)).1.gameState = .won
    ∧ (processCollisions st (⟨h1, h2, true⟩ :: rest)).1.balls = st.balls
    ∧ GEvent.win (toPixels ((b1.physPos.x + b2.physPos.x) / 2)
          ((b1.physPos.y + b2.physPos.y) / 2)).x
        (toPixels ((b1.physPos.x + b2.physPos.x) / 2)
          ((b1.physPos.y + b2.physPos.y) / 2)).y
      ∈ (processCollisions st (⟨h1, h2, true⟩ :: rest)).2 := by
  have hWf := winPhase_fields st (some b1) (some b2)
  have hev : processEvent st ⟨h1, h2, true⟩
      = (conveyorPhase
          (icePhase (icePhase (winPhase st (some b1) (some b2)).1 h1) h2)
          h1 h2 true,
         (winPhase st (some b1) (some b2)).2 ++ []) := by
    unfold processEvent
    dsimp only
    rw [hb1, hb2, if_pos rfl]
    rw [laserPhase_of_not_hit _ (some b1) (some b2) h1 h2 ?_]
    have hlaseq : (icePhase (icePhase (winPhase st (some b1) (some b2)).1 h1)
        h2).laserColliderHandles = st.laserColliderHandles := by
      rw [(icePhase_fields _ h2).2.2.1, (icePhase_fields _ h1).2.2.1,
        hWf.2.1]
    rw [hlaseq]
    simp [hl1, hl2]
  have hwin : (winPhase st (some b1) (some b2)).2
      = [GEvent.win (toPixels ((b1.physPos.x + b2.physPos.x) / 2)
            ((b1.physPos.y + b2.physPos.y) / 2)).x
          (toPixels ((b1.physPos.x + b2.physPos.x) / 2)
            ((b1.physPos.y + b2.physPos.y) / 2)).y,
         GEvent.ringExplosion
           (max 0 (min (toPixels ((b1.physPos.x + b2.physPos.x) / 2)
             ((b1.physPos.y + b2.physPos.y) / 2)).x GAME_WIDTH))
           (max 0 (min (toPixels ((b1.physPos.x + b2.physPos.x) / 2)
             ((b1.physPos.y + b2.physPos.y) / 2)).y GAME_HEIGHT)),
         GEvent.particleExplosion
           (max 0 (min (toPixels ((b1.physPos.x + b2.physPos.x) / 2)
             ((b1.physPos.y + b2.physPos.y) / 2)).x GAME_WIDTH))
           (max 0 (min (toPixels ((b1.physPos.x + b2.physPos.x) / 2)
             ((b1.physPos.y + b2.physPos.y) / 2)).y GAME_HEIGHT))] := by
    unfold winPhase handleWin
    dsimp only
  set stMid := conveyorPhase
      (icePhase (icePhase (winPhase st (some b1) (some b2)).1 h1) h2)
      h1 h2 true with hmid
  have hmidwon : stMid.gameState = .won := by
    rw [hmid, (conveyorPhase_fields _ h1 h2 true).1,
      (icePhase_fields _ h2).1, (icePhase_fields _ h1).1]
    rfl
  have hmidbch : stMid.ballColliderHandles = st.ballColliderHandles := by
    rw [hmid, (conveyorPhase_fields _ h1 h2 true).2.1,
      (icePhase_fields _ h2).2.1, (icePhase_fields _ h1).2.1, hWf.1]
  have hmidlas : stMid.laserColliderHandles = st.laserColliderHandles := by
    rw [hmid, (conveyorPhase_fields _ h1 h2 true).2.2.1,
      (icePhase_fields _ h2).2.2.1, (icePhase_fields _ h1).2.2.1, hWf.2.1]
  have hmidballs : stMid.balls = st.balls := by
    rw [hmid, (conveyorPhase_fields _ h1 h2 true).2.2.2,
      (icePhase_fields _ h2).2.2.2, (icePhase_fields _ h1).2.2.2, hWf.2.2]
  have hdrain := processEvents_preserves_won st rest stMid hmidwon
    (fun h b hm => by rw [hmidbch] at hm; rw [hm]; rfl)
    hmidlas hrest
  unfold processCollisions
  rw [if_pos hplay]
  show ((processEvents st (⟨h1, h2, true⟩ :: rest)).1.gameState = .won) ∧ _
  have hcons : processEvents st (⟨h1, h2, true⟩ :: rest)
      = ((processEvents (processEvent st ⟨h1, h2, true⟩).1 rest).1,
         (processEvent st ⟨h1, h2, true⟩).2
           ++ (processEvents (processEvent st ⟨h1, h2, true⟩).1 rest).2) :=
    rfl
  rw [hcons, hev]
  dsimp only
  refine ⟨hdrain.1, hdrain.2.trans hmidballs, ?_⟩
  rw [hwin]
  simp

/-! ## C2: boundary loss -/

lemma ballOutOfBounds_stepBall (f : Vec2 → Vec2) (b : Ball) :
    ballOutOfBounds (stepBall f b) = ballOutOfBounds b :=
  rfl

lemma stepBall_handle (f : Vec2 → Vec2) (b : Ball) :
    (stepBall f b).handle = b.handle :=
  rfl

lemma syncBall_handle (b : Ball) : (syncBall b).handle = b.handle :=
  rfl

lemma physicsStepBalls_gameState (f : Vec2 → Vec2) (st : GameM) :
    (physicsStepBalls f st).gameState = st.gameState :=
  rfl

lemma syncBalls_gameState (st : GameM) :
    (syncBalls st).gameState = st.gameState :=
  rfl

lemma iceBlocksUpdatePhase_gameState (dt : ℚ) (st : GameM) :
    (iceBlocksUpdatePhase dt st).gameState = st.gameState :=
  rfl

lemma iceBlocksUpdatePhase_balls (dt : ℚ) (st : GameM) :
    (iceBlocksUpdatePhase dt st).balls = st.balls :=
  rfl

lemma gameUpdate_frozen (g : Vec2 → Vec2) (evs : List CEvent) (dt2 : ℚ)
    (st : GameM) (h : st.gameState = .won ∨ st.gameState = .lost) :
    Game.update g evs dt2 st = (st, []) := by
  unfold Game.update
  rw [if_pos h]

lemma find?_middle {α : Type} (p : α → Bool) (a : α) :
    ∀ (pre post : List α), (∀ x ∈ pre, p x = false) → p a = true →
      (pre ++ a :: post).find? p = some a
  | [], post, _, ha => by
    rw [List.nil_append]
    exact List.find?_cons_of_pos post ha
  | x :: pre, post, hpre, ha => by
    rw [List.cons_append,
      List.find?_cons_of_neg _ (by simp [hpre x (List.mem_cons_self x pre)])]
    exact find?_middle p a pre post
      (fun y hy => hpre y (List.mem_cons_of_mem x hy)) ha

/-- C2 amended: when the first out-of-bounds ball of the list (margin two
ball radii on the left, right and bottom, no top limit, measured on the
presentation position) is observed while Playing, that same tick moves the
session to Lost, removes that ball from the live ball set, and still steps
and syncs the other balls within that tick - but every subsequent tick
returns immediately (for any solver, events and delta), so the remaining
balls and objects are frozen, not simulated, until the reload fires. -/
theorem c2_boundary_loss (f : Vec2 → Vec2) (dt : ℚ) (st : GameM)
    (pre post : List Ball) (b : Ball)
    (hplay : st.gameState = .playing)
    (hsplit : st.balls = pre ++ b :: post)
    (hpre : ∀ x ∈ pre, ballOutOfBounds x = false)
    (hb : ballOutOfBounds b = true)
    (hnodup : (st.balls.map Ball.handle).Nodup) :
    (Game.update f [] dt st).1.gameState = .lost
    ∧ (∀ b2 ∈ (Game.update f [] dt st).1.balls, b2.handle ≠ b.handle)
    ∧ (Game.update f [] dt st).1.balls
        = (pre ++ post).map (fun x => syncBall (stepBall f x))
    ∧ (∀ (g : Vec2 → Vec2) (evs : List CEvent) (dt2 : ℚ),
        Game.update g evs dt2 (Game.update f [] dt st).1
          = ((Game.update f [] dt st).1, [])) := by
  have hst1g : (physicsStepBalls f st).gameState = .playing := by
    rw [physicsStepBalls_gameState, hplay]
  have hst1balls : (physicsStepBalls f st).balls
      = pre.map (stepBall f) ++ stepBall f b :: post.map (stepBall f) := by
    show st.balls.map (stepBall f) = _
    rw [hsplit, List.map_append, List.map_cons]
  have hbhandle : b.handle ∉ pre.map Ball.handle := by
    rw [hsplit, List.map_append, List.map_cons] at hnodup
    intro hmem
    exact (List.nodup_append.mp hnodup).2.2 hmem (List.mem_cons_self _ _)
  have hbpost : b.handle ∉ post.map Ball.handle := by
    rw [hsplit, List.map_append, List.map_cons] at hnodup
    exact (List.nodup_cons.mp (List.nodup_append.mp hnodup).2.1).1
  have hnotpre : stepBall f b ∉ pre.map (stepBall f) := by
    intro hmem
    rcases List.mem_map.mp hmem with ⟨x, hx, hxe⟩
    exact hbhandle (List.mem_map.mpr ⟨x, hx, by
      rw [← stepBall_handle f x, hxe, stepBall_handle]⟩)
  have hfind : (physicsStepBalls f st).balls.find? ballOutOfBounds
      = some (stepBall f b) := by
    rw [hst1balls]
    exact find?_middle ballOutOfBounds (stepBall f b) (pre.map (stepBall f))
      (post.map (stepBall f))
      (fun x hx => by
        rcases List.mem_map.mp hx with ⟨y, hy, rfl⟩
        rw [ballOutOfBounds_stepBall]
        exact hpre y hy)
      (by rw [ballOutOfBounds_stepBall]; exact hb)
  have hmem : stepBall f b ∈ (physicsStepBalls f st).balls := by
    rw [hst1balls]
    exact List.mem_append.mpr (Or.inr (List.mem_cons_self _ _))
  set stL := (handleLoss (physicsStepBalls f st) (stepBall f b)).1 with hLdef
  have hLg : stL.gameState = .lost := by
    rw [hLdef]
    unfold handleLoss
    rw [if_pos hmem]
  have hLballs : stL.balls
      = pre.map (stepBall f) ++ post.map (stepBall f) := by
    rw [hLdef]
    unfold handleLoss
    rw [if_pos hmem]
    dsimp only
    rw [hst1balls, List.erase_append_right _ hnotpre, List.erase_cons_head]
  have hupdate : (Game.update f [] dt st).1
      = iceBlocksUpdatePhase dt (syncBalls stL) := by
    unfold Game.update
    rw [if_neg (by rw [hplay]; simp)]
    dsimp only
    rw [if_pos hst1g]
    unfold processCollisions
    rw [if_pos hst1g]
    dsimp only
    show (iceBlocksUpdatePhase dt (syncBalls
      (checkBoundaries (processEvents (physicsStepBalls f st) []).1).1)) = _
    unfold processEvents
    unfold checkBoundaries
    rw [hfind]
  have hgoalballs : (Game.update f [] dt st).1.balls
      = (pre ++ post).map (fun x => syncBall (stepBall f x)) := by
    rw [hupdate, iceBlocksUpdatePhase_balls]
    show stL.balls.map syncBall = _
    rw [hLballs]
    simp only [List.map_append, List.map_map]
    rfl
  have hgoalstate : (Game.update f [] dt st).1.gameState = .lost := by
    rw [hupdate, iceBlocksUpdatePhase_gameState, syncBalls_gameState, hLg]
  refine ⟨hgoalstate, ?_, hgoalballs, ?_⟩
  · intro b2 hb2
    rw [hgoalballs] at hb2
    rcases List.mem_map.mp hb2 with ⟨x, hx, rfl⟩
    rw [syncBall_handle, stepBall_handle]
    rcases List.mem_append.mp hx with hx | hx
    · intro heq
      exact hbhandle (heq ▸ List.mem_map.mpr ⟨x, hx, rfl⟩)
    · intro heq
      exact hbpost (heq ▸ List.mem_map.mpr ⟨x, hx, rfl⟩)
  · intro g evs dt2
    exact gameUpdate_frozen g evs dt2 _ (Or.inr hgoalstate)

/-- C2 as stated (the "keep simulating" part): if a tick observes an
out-of-bounds ball while Playing, the next tick still advances the remaining
balls' physics positions under the solver. -/
def claimC2KeepsSimulating : Prop :=
  ∀ (f : Vec2 → Vec2) (dt : ℚ) (st : GameM),
    st.gameState = .playing →
    (∃ b ∈ st.balls, ballOutOfBounds b = true) →
    (Game.update f [] dt (Game.update f [] dt st).1).1.balls.map Ball.physPos
      = (Game.update f [] dt st).1.balls.map (fun b => f b.physPos)

/-- The solver used in the C2 counterexample: every body falls by one physics
unit per tick. -/
def c2Fall : Vec2 → Vec2 := fun v => ⟨v.x, v.y - 1⟩

/-- The out-of-bounds ball of the C2 counterexample: its presentation x is
-120 < -2 * 25. -/
def c2BallOut : Ball := ⟨1, 101, ⟨-2, 0⟩, ⟨-120, 0⟩⟩

/-- The surviving in-bounds ball of the C2 counterexample. -/
def c2BallIn : Ball := ⟨2, 102, ⟨4, 3⟩, ⟨240, -180⟩⟩

/-- The playing state of the C2 counterexample. -/
def c2State : GameM :=
  { gameState := .playing,
    balls := [c2BallOut, c2BallIn],
    ballColliderHandles := [(1, c2BallOut), (2, c2BallIn)],
    iceBlocks := [],
    laserColliderHandles := [],
    conveyorHandles := [],
    drawnLineColliderHandles := [],
    fallingObjectColliderHandles := [],
    seesawColliderHandles := [],
    activeConveyorContacts := [],
    autoRestartTimeout := none,
    nextTimerId := 0,
    hasStarted := true }

/-- The state after the tick that observes the crossing: Lost, ball removed,
the surviving ball stepped (physics y from 3 to 2) and synced, the reload
timer scheduled. -/
def c2AfterLoss : GameM :=
  { gameState := .lost,
    balls := [⟨2, 102, ⟨4, 2⟩, ⟨240, -120⟩⟩],
    ballColliderHandles := [(2, ⟨2, 102, ⟨4, 2⟩, ⟨240, -120⟩⟩)],
    iceBlocks := [],
    laserColliderHandles := [],
    conveyorHandles := [],
    drawnLineColliderHandles := [],
    fallingObjectColliderHandles := [],
    seesawColliderHandles := [],
    activeConveyorContacts := [],
    autoRestartTimeout := some 0,
    nextTimerId := 1,
    hasStarted := true }

lemma c2_scenario_eval :
    (Game.update c2Fall [] (1 / 60) c2State).1 = c2AfterLoss := by
  have e1 : (GState.playing = GState.won) = False := eq_false (by decide)
  have e2 : (GState.playing = GState.lost) = False := eq_false (by decide)
  norm_num [e1, e2, Game.update, physicsStepBalls, stepBall, processCollisions,
    processEvents, checkBoundaries, ballOutOfBounds, handleLoss, syncBalls,
    syncBall, iceBlocksUpdatePhase, toPixels, mapGet, c2State, c2Fall,
    c2BallOut, c2BallIn, c2AfterLoss, BALL_RADIUS, GAME_WIDTH, GAME_HEIGHT,
    SCALE, List.find?, List.erase_cons, List.filter]

/-- C2 counterexample: in the concrete scenario, the tick after the loss
returns immediately (the update loop exits once the state is Lost), so the
surviving ball's physics position stays (4, 2) instead of being advanced by
the falling solver to (4, 1) - the remaining balls do not keep simulating
until the reload fires. -/
theorem c2_counterexample : ¬ claimC2KeepsSimulating := by
  intro h
  have hinst := h c2Fall (1 / 60) c2State rfl
    ⟨c2BallOut, by simp [c2State],
     by norm_num [ballOutOfBounds, c2BallOut, BALL_RADIUS]⟩
  rw [c2_scenario_eval] at hinst
  have h2 : Game.update c2Fall [] (1 / 60) c2AfterLoss = (c2AfterLoss, []) :=
    gameUpdate_frozen c2Fall [] (1 / 60) c2AfterLoss (Or.inr rfl)
  rw [h2] at hinst
  norm_num [c2AfterLoss, c2Fall] at hinst

/-- Witness for C2 amended at the concrete scenario: the loss tick ends Lost
and the surviving ball was stepped and synced within that same tick. -/
theorem c2_boundary_loss_witness :
    (Game.update c2Fall [] (1 / 60) c2State).1.gameState = .lost
    ∧ (Game.update c2Fall [] (1 / 60) c2State).1.balls
        = [c2BallIn].map (fun x => syncBall (stepBall c2Fall x)) := by
  have h := c2_boundary_loss c2Fall (1 / 60) c2State [] [c2BallIn] c2BallOut
    rfl rfl (by simp) (by norm_num [ballOutOfBounds, c2BallOut, BALL_RADIUS])
    (by simp [c2State, c2BallOut, c2BallIn])
  exact ⟨h.1, h.2.2.1⟩

/-! ## C1, tick level -/

lemma physicsStepBalls_laser (f : Vec2 → Vec2) (st : GameM) :
    (physicsStepBalls f st).laserColliderHandles = st.laserColliderHandles :=
  rfl

lemma physicsStepBalls_balls (f : Vec2 → Vec2) (st : GameM) :
    (physicsStepBalls f st).balls = st.balls.map (stepBall f) :=
  rfl

/-- C1 amended, at the level of one whole Game.update tick: while Playing,
when the first drained event is a collision start whose two handles resolve
to balls in the (post-solver-step) ball lookup table and are not laser
handles, the session transitions to Won and the emitted win event carries
the midpoint of the two balls' positions converted to presentation space;
the tick ends Won provided additionally that no later event of the same
drain is a collision start naming a laser-ball pair and that no live ball's
presentation position is out of bounds - the drain callback and the
post-drain checkBoundaries both run without rechecking the session state,
so either a later laser-ball event or an out-of-bounds ball would run the
loss handler and flip the tick's final state to Lost. -/
theorem c1_ball_collision_win (f : Vec2 → Vec2) (dt : ℚ) (st : GameM)
    (h1 h2 : Nat) (b1 b2 : Ball) (rest : List CEvent)
    (hplay : st.gameState = .playing)
    (hb1 : mapGet (physicsStepBalls f st).ballColliderHandles h1 = some b1)
    (hb2 : mapGet (physicsStepBalls f st).ballColliderHandles h2 = some b2)
    (hl1 : h1 ∉ st.laserColliderHandles)
    (hl2 : h2 ∉ st.laserColliderHandles)
    (hrest : ∀ ev ∈ rest, ¬ startedLaserBallEvent (physicsStepBalls f st) ev)
    (hinb : ∀ x ∈ st.balls, ballOutOfBounds x = false) :
    (Game.update f (⟨h1, h2, true⟩ :: rest) dt st).1.gameState = .won
    ∧ GEvent.win (toPixels ((b1.physPos.x + b2.physPos.x) / 2)
          ((b1.physPos.y + b2.physPos.y) / 2)).x
        (toPixels ((b1.physPos.x + b2.physPos.x) / 2)
          ((b1.physPos.y + b2.physPos.y) / 2)).y
      ∈ (Game.update f (⟨h1, h2, true⟩ :: rest) dt st).2 := by
  have hst1play : (physicsStepBalls f st).gameState = .playing := by
    rw [physicsStepBalls_gameState, hplay]
  have hdrain := processCollisions_win_drain (physicsStepBalls f st) h1 h2
    b1 b2 rest hst1play hb1 hb2
    (by rw [physicsStepBalls_laser]; exact hl1)
    (by rw [physicsStepBalls_laser]; exact hl2) hrest
  have hfindnone : (processCollisions (physicsStepBalls f st)
      (⟨h1, h2, true⟩ :: rest)).1.balls.find? ballOutOfBounds = none := by
    rw [hdrain.2.1]
    apply List.find?_eq_none.mpr
    intro x hx
    rw [physicsStepBalls_balls] at hx
    rcases List.mem_map.mp hx with ⟨y, hy, rfl⟩
    simp [ballOutOfBounds_stepBall, hinb y hy]
  have hcb : checkBoundaries (processCollisions (physicsStepBalls f st)
        (⟨h1, h2, true⟩ :: rest)).1
      = ((processCollisions (physicsStepBalls f st)
          (⟨h1, h2, true⟩ :: rest)).1, []) := by
    unfold checkBoundaries
    rw [hfindnone]
  unfold Game.update
  rw [if_neg (by rw [hplay]; simp)]
  dsimp only
  rw [if_pos hst1play]
  dsimp only
  rw [hcb]
  dsimp only
  constructor
  · rw [iceBlocksUpdatePhase_gameState, syncBalls_gameState]
    exact hdrain.1
  · rw [List.append_nil]
    exact hdrain.2.2

/-- The concrete playing state of the C1 witness: two balls in bounds, no
lasers, no other entities. -/
def c1NoLaserState : GameM :=
  { gameState := .playing,
    balls := [⟨1, 101, ⟨1, 2⟩, ⟨60, -120⟩⟩, ⟨2, 102, ⟨3, 4⟩, ⟨180, -240⟩⟩],
    ballColliderHandles :=
      [(1, ⟨1, 101, ⟨1, 2⟩, ⟨60, -120⟩⟩), (2, ⟨2, 102, ⟨3, 4⟩, ⟨180, -240⟩⟩)],
    iceBlocks := [],
    laserColliderHandles := [],
    conveyorHandles := [],
    drawnLineColliderHandles := [],
    fallingObjectColliderHandles := [],
    seesawColliderHandles := [],
    activeConveyorContacts := [],
    autoRestartTimeout := none,
    nextTimerId := 0,
    hasStarted := true }

/-- Witness for C1 amended: one full tick (identity solver, both balls in
bounds, no lasers) over the single ball-ball start event ends Won with the
win event at toPixels(2, 3) = (120, -180). -/
theorem c1_ball_collision_win_witness :
    (Game.update id [⟨1, 2, true⟩] (1 / 60) c1NoLaserState).1.gameState = .won
    ∧ GEvent.win (toPixels (((1 : ℚ) + 3) / 2) (((2 : ℚ) + 4) / 2)).x
        (toPixels (((1 : ℚ) + 3) / 2) (((2 : ℚ) + 4) / 2)).y
      ∈ (Game.update id [⟨1, 2, true⟩] (1 / 60) c1NoLaserState).2 :=
  c1_ball_collision_win id (1 / 60) c1NoLaserState 1 2
    ⟨1, 101, ⟨1, 2⟩, ⟨60, -120⟩⟩ ⟨2, 102, ⟨3, 4⟩, ⟨180, -240⟩⟩ [] rfl
    (by simp [c1NoLaserState, physicsStepBalls, stepBall, mapGet])
    (by simp [c1NoLaserState, physicsStepBalls, stepBall, mapGet])
    (by simp [c1NoLaserState]) (by simp [c1NoLaserState]) (by simp)
    (by
      intro x hx
      simp only [c1NoLaserState, List.mem_cons, List.not_mem_nil,
        or_false] at hx
      rcases hx with rfl | rfl <;>
        norm_num [ballOutOfBounds, BALL_RADIUS, GAME_WIDTH, GAME_HEIGHT])
end Braindots
